import Mathlib

/-!
Shallow embedding of wlnr/relayinterface/client_rpc.go: a bidirectional RPC
client for the Widelands relay server. The outbound transport and the relay
are external, so outbound RPC call outcomes and dial outcomes are supplied
by an environment oracle, indexed by attempt number within one invocation.
The embedding keeps an explicit trace of the messages sent and of the calls
to connect so that the retry and reconnect policy can be stated exactly.
-/

namespace RelayInterface

/-- Modelled from the spec: GameIdentity is a name and password pair; the Go
declaration of GameData is outside the given source file, but its two fields
Name and Password are fixed by their uses in client_rpc.go and by the spec. -/
structure GameData where
  Name : String
  Password : String
  deriving DecidableEq, Repr

/-- Modelled from the spec: ServerStatus is an opaque status snapshot owned
by the callback consumer; its Go declaration is outside the given source
file, so it is modelled as an opaque value wrapper. -/
structure ServerStatus where
  snapshot : Nat
  deriving DecidableEq, Repr

/-- An abstract outbound transport handle: stands for one value of the Go
field relay (one rpc client built from one dialed connection). -/
abbrev Handle := Nat

/-- The inbound TCP listener. Close sets the flag rather than removing the
handle, mirroring listener.Close in Go which does not nil the field. -/
structure Listener where
  id : Nat
  isClosed : Bool
  deriving DecidableEq, Repr

/-- Modelled from the spec: the callback consumer. Its GameConnected and
GameClosed behaviors are external and observed through emitted events; its
Status method returns a pointer, modelled as an Option which is none exactly
when the returned pointer is nil. -/
structure ClientCallback where
  status : Option ServerStatus
  deriving DecidableEq, Repr

/-- The ClientRPC struct of client_rpc.go. The relay and listener fields are
Options because their Go zero values are nil. -/
structure ClientRPC where
  callback : ClientCallback
  relay : Option Handle
  listener : Option Listener
  deriving DecidableEq, Repr

/-- Outcome of one underlying rpc Call attempt: err == nil with a decoded
boolean reply, err == rpc.ErrShutdown, or any other rpc error. -/
inductive CallOutcome where
  | ok (result : Bool)
  | shutdown
  | otherErr
  deriving DecidableEq, Repr

/-- Environment oracle for one invocation: the outcome of the i-th rpc call
attempt and the result of the i-th dial attempt (none is a dial error, some
h is a fresh transport handle). -/
structure Env where
  calls : Nat → CallOutcome
  dials : Nat → Option Handle

/-- connect from client_rpc.go: dial the relay; on error return false and
leave the client untouched; on success install the fresh handle as the sole
outbound connection and return true. -/
def ClientRPC.connect (client : ClientRPC) (dial : Option Handle) :
    Bool × ClientRPC :=
  match dial with
  | none => (false, client)
  | some h => (true, { client with relay := some h })

/-- Observable result of one CreateGame or RemoveGame invocation: the
returned boolean, the final client state, the list of (method, data)
messages sent (one per rpc call attempt, in order), and the number of calls
to connect made during the invocation. -/
structure CallTrace where
  ret : Bool
  client : ClientRPC
  sent : List (String × GameData)
  numConnects : Nat
  deriving Repr

/-- The body shared by CreateGame and RemoveGame in client_rpc.go: the Go
loop for i := 0; i < 2; i++ around client.relay.Call(method, data, &success),
with fuel the number of remaining iterations. On err == nil the reply is
written and the loop breaks; on rpc.ErrShutdown connect is called, a failed
connect returns false, a successful one continues the loop; any other error
returns false. Exhausting the loop returns success, which is written only by
a successful call (and then the loop breaks), so it is still false there. -/
def callLoop (env : Env) (method : String) (data : GameData) :
    Nat → ClientRPC → Bool → Nat → Nat → CallTrace
  | 0, client, success, _, _ =>
      { ret := success, client := client, sent := [], numConnects := 0 }
  | fuel + 1, client, _, callIdx, dialIdx =>
      match env.calls callIdx with
      | CallOutcome.ok b =>
          { ret := b, client := client, sent := [(method, data)],
            numConnects := 0 }
      | CallOutcome.otherErr =>
          { ret := false, client := client, sent := [(method, data)],
            numConnects := 0 }
      | CallOutcome.shutdown =>
          match ClientRPC.connect client (env.dials dialIdx) with
          | (false, client1) =>
              { ret := false, client := client1, sent := [(method, data)],
                numConnects := 1 }
          | (true, client1) =>
              let rest :=
                callLoop env method data fuel client1 false (callIdx + 1)
                  (dialIdx + 1)
              { ret := rest.ret, client := rest.client,
                sent := (method, data) :: rest.sent,
                numConnects := 1 + rest.numConnects }

/-- CreateGame from client_rpc.go: builds the GameData with both fields set
and runs the two-iteration call loop on ServerRPCMethods.NewGame. -/
def ClientRPC.CreateGame (env : Env) (client : ClientRPC)
    (name hostPassword : String) : CallTrace :=
  callLoop env "ServerRPCMethods.NewGame"
    { Name := name, Password := hostPassword } 2 client false 0 0

/-- RemoveGame from client_rpc.go: builds the GameData with an empty
password and runs the two-iteration call loop on
ServerRPCMethods.RemoveGame. -/
def ClientRPC.RemoveGame (env : Env) (client : ClientRPC)
    (name : String) : CallTrace :=
  callLoop env "ServerRPCMethods.RemoveGame"
    { Name := name, Password := "" } 2 client false 0 0

/-- CloseConnection from client_rpc.go: closes the inbound listener and
touches nothing else. -/
def ClientRPC.CloseConnection (client : ClientRPC) : ClientRPC :=
  { client with
    listener := client.listener.map (fun l => { l with isClosed := true }) }

/-- NewClientRPC from client_rpc.go: starts from the zero-valued struct with
the given callback, requires connect to succeed (else nil), then requires
binding the inbound listener to succeed (else nil), and returns the client
holding the callback, the fresh handle and the bound listener. The listen
oracle is none on a bind error and some id for a fresh bound socket. -/
def NewClientRPC (callback : ClientCallback) (dial : Option Handle)
    (listen : Option Nat) : Option ClientRPC :=
  let client : ClientRPC :=
    { callback := callback, relay := none, listener := none }
  match ClientRPC.connect client dial with
  | (false, _) => none
  | (true, client1) =>
      match listen with
      | none => none
      | some lnId =>
          some { client1 with listener := some { id := lnId, isClosed := false } }

/-- One observable call into the callback consumer from an inbound
handler. -/
inductive CallbackEvent where
  | gameConnected (name : String)
  | gameClosed (name : String)
  deriving DecidableEq, Repr

/-- Observable result of one inbound GameConnected or GameClosed handler
run: the callback invocations made (in order), the final value of the
boolean response cell, and the error returned to the rpc layer. -/
structure HandlerResult where
  events : List CallbackEvent
  response : Bool
  err : Option String
  deriving DecidableEq, Repr

/-- ClientRPCMethods.GameConnected from client_rpc.go: forwards the Name
field of the received GameData to the callback consumer and returns nil;
the response cell keeps its prior value. -/
def ClientRPCMethods.GameConnected (inData : GameData) (response : Bool) :
    HandlerResult :=
  { events := [CallbackEvent.gameConnected inData.Name],
    response := response, err := none }

/-- ClientRPCMethods.GameClosed from client_rpc.go: forwards the Name field
of the received GameData to the callback consumer and returns nil; the
response cell keeps its prior value. -/
def ClientRPCMethods.GameClosed (inData : GameData) (response : Bool) :
    HandlerResult :=
  { events := [CallbackEvent.gameClosed inData.Name],
    response := response, err := none }

/-- Outcome of one inbound Status handler run: either a nil pointer
dereference panic, or a returned snapshot together with the error value. -/
inductive StatusOutcome where
  | nilDeref
  | returned (response : ServerStatus) (err : Option String)
  deriving DecidableEq, Repr

/-- ClientRPCMethods.Status from client_rpc.go: dereferences the pointer
returned by the callback consumers Status method with no nil check, copying
the snapshot into the response and returning nil; a nil pointer panics. -/
def ClientRPCMethods.Status (cb : ClientCallback) (_inString : String) :
    StatusOutcome :=
  match cb.status with
  | none => StatusOutcome.nilDeref
  | some s => StatusOutcome.returned s none

/-- The final boolean an invocation yields when a given outcome is that of
its last call attempt: the decoded reply on success, false on any error
(the success variable is only written by a successful call). -/
def attemptFinal : CallOutcome → Bool
  | CallOutcome.ok b => b
  | CallOutcome.shutdown => false
  | CallOutcome.otherErr => false

/-- A concrete client used to evaluate the definitions at sample inputs. -/
def clientEx : ClientRPC :=
  { callback := { status := none }, relay := some 0,
    listener := some { id := 0, isClosed := false } }

/-- An environment in which every call attempt fails with rpc.ErrShutdown
and every dial succeeds. -/
def envTwoShutdowns : Env :=
  { calls := fun _ => CallOutcome.shutdown, dials := fun _ => some 1 }

/-- An environment in which the first call attempt fails with
rpc.ErrShutdown, the dial succeeds, and the retry succeeds with true. -/
def envRetryOk : Env :=
  { calls := fun i => if i = 0 then CallOutcome.shutdown else CallOutcome.ok true,
    dials := fun _ => some 1 }

/-- An environment in which the first call attempt succeeds and the relay
reports true. -/
def envOkTrue : Env :=
  { calls := fun _ => CallOutcome.ok true, dials := fun _ => none }

/-- C1 (counterexample): the claim that every CreateGame invocation makes at
most one call to connect is false: when both call attempts fail with
rpc.ErrShutdown and the first dial succeeds, connect is called twice. -/
theorem createGame_one_reconnect_refuted :
    ¬ (ClientRPC.CreateGame envTwoShutdowns clientEx "room1" "pw").numConnects ≤ 1 := by
  decide

/-- C1 (amended): every CreateGame or RemoveGame invocation calls connect at
most twice, and at most once per rpc call attempt made; an invocation makes
exactly two connects precisely when both call attempts fail with
rpc.ErrShutdown and the first dial succeeds. -/
theorem createGame_removeGame_at_most_two_connects (env : Env)
    (client : ClientRPC) (name hostPassword : String) :
    ((ClientRPC.CreateGame env client name hostPassword).numConnects ≤ 2 ∧
      (ClientRPC.CreateGame env client name hostPassword).numConnects ≤
        (ClientRPC.CreateGame env client name hostPassword).sent.length ∧
      ((ClientRPC.CreateGame env client name hostPassword).numConnects = 2 ↔
        env.calls 0 = CallOutcome.shutdown ∧ (env.dials 0).isSome ∧
          env.calls 1 = CallOutcome.shutdown)) ∧
    ((ClientRPC.RemoveGame env client name).numConnects ≤ 2 ∧
      (ClientRPC.RemoveGame env client name).numConnects ≤
        (ClientRPC.RemoveGame env client name).sent.length ∧
      ((ClientRPC.RemoveGame env client name).numConnects = 2 ↔
        env.calls 0 = CallOutcome.shutdown ∧ (env.dials 0).isSome ∧
          env.calls 1 = CallOutcome.shutdown)) := by
  cases h0 : env.calls 0 <;> cases h1 : env.calls 1 <;>
    cases hd0 : env.dials 0 <;> cases hd1 : env.dials 1 <;>
    simp [ClientRPC.CreateGame, ClientRPC.RemoveGame, callLoop,
      ClientRPC.connect, h0, h1, hd0, hd1]

/-- C2: every CreateGame or RemoveGame invocation makes at most two rpc call
attempts; when the first attempt fails with rpc.ErrShutdown and the dial
succeeds, exactly one retry is made and the final boolean is determined by
the outcome of that retry. -/
theorem createGame_removeGame_retry_bound (env : Env) (client : ClientRPC)
    (name hostPassword : String) :
    ((ClientRPC.CreateGame env client name hostPassword).sent.length ≤ 2 ∧
      (ClientRPC.RemoveGame env client name).sent.length ≤ 2) ∧
    (env.calls 0 = CallOutcome.shutdown → (env.dials 0).isSome →
      (ClientRPC.CreateGame env client name hostPassword).sent.length = 2 ∧
      (ClientRPC.CreateGame env client name hostPassword).ret =
        attemptFinal (env.calls 1) ∧
      (ClientRPC.RemoveGame env client name).sent.length = 2 ∧
      (ClientRPC.RemoveGame env client name).ret =
        attemptFinal (env.calls 1)) := by
  cases h0 : env.calls 0 <;> cases h1 : env.calls 1 <;>
    cases hd0 : env.dials 0 <;> cases hd1 : env.dials 1 <;>
    simp [ClientRPC.CreateGame, ClientRPC.RemoveGame, callLoop,
      ClientRPC.connect, attemptFinal, h0, h1, hd0, hd1]

/-- C2 (witness): in the environment where the first attempt is a shutdown,
the dial succeeds and the retry returns true, both operations make exactly
two attempts and return the retry outcome. -/
theorem createGame_removeGame_retry_bound_witness :
    (ClientRPC.CreateGame envRetryOk clientEx "room1" "pw").sent.length = 2 ∧
    (ClientRPC.CreateGame envRetryOk clientEx "room1" "pw").ret =
      attemptFinal (envRetryOk.calls 1) ∧
    (ClientRPC.RemoveGame envRetryOk clientEx "room1").sent.length = 2 ∧
    (ClientRPC.RemoveGame envRetryOk clientEx "room1").ret =
      attemptFinal (envRetryOk.calls 1) :=
  (createGame_removeGame_retry_bound envRetryOk clientEx "room1" "pw").2 rfl rfl

/-- C3: in CreateGame and RemoveGame, a shutdown failure whose reconnect
fails returns false with no further call attempt, and any other rpc error
returns false at once with no reconnect and no further call attempt; both
also hold when the failing attempt is the retry. -/
theorem createGame_removeGame_failfast (env : Env) (client : ClientRPC)
    (name hostPassword : String) :
    (env.calls 0 = CallOutcome.shutdown → env.dials 0 = none →
      (ClientRPC.CreateGame env client name hostPassword).ret = false ∧
      (ClientRPC.CreateGame env client name hostPassword).sent.length = 1 ∧
      (ClientRPC.RemoveGame env client name).ret = false ∧
      (ClientRPC.RemoveGame env client name).sent.length = 1) ∧
    (env.calls 0 = CallOutcome.otherErr →
      (ClientRPC.CreateGame env client name hostPassword).ret = false ∧
      (ClientRPC.CreateGame env client name hostPassword).sent.length = 1 ∧
      (ClientRPC.CreateGame env client name hostPassword).numConnects = 0 ∧
      (ClientRPC.RemoveGame env client name).ret = false ∧
      (ClientRPC.RemoveGame env client name).sent.length = 1 ∧
      (ClientRPC.RemoveGame env client name).numConnects = 0) ∧
    (env.calls 0 = CallOutcome.shutdown → (env.dials 0).isSome →
      env.calls 1 = CallOutcome.shutdown → env.dials 1 = none →
      (ClientRPC.CreateGame env client name hostPassword).ret = false ∧
      (ClientRPC.CreateGame env client name hostPassword).sent.length = 2 ∧
      (ClientRPC.RemoveGame env client name).ret = false ∧
      (ClientRPC.RemoveGame env client name).sent.length = 2) ∧
    (env.calls 0 = CallOutcome.shutdown → (env.dials 0).isSome →
      env.calls 1 = CallOutcome.otherErr →
      (ClientRPC.CreateGame env client name hostPassword).ret = false ∧
      (ClientRPC.CreateGame env client name hostPassword).sent.length = 2 ∧
      (ClientRPC.CreateGame env client name hostPassword).numConnects = 1 ∧
      (ClientRPC.RemoveGame env client name).ret = false ∧
      (ClientRPC.RemoveGame env client name).sent.length = 2 ∧
      (ClientRPC.RemoveGame env client name).numConnects = 1) := by
  cases h0 : env.calls 0 <;> cases h1 : env.calls 1 <;>
    cases hd0 : env.dials 0 <;> cases hd1 : env.dials 1 <;>
    simp [ClientRPC.CreateGame, ClientRPC.RemoveGame, callLoop,
      ClientRPC.connect, h0, h1, hd0, hd1]

/-- C3 (witness): with both dials failing and all calls reporting shutdown,
both operations fail after a single attempt. -/
theorem createGame_removeGame_failfast_witness :
    (ClientRPC.CreateGame
        { calls := fun _ => CallOutcome.shutdown, dials := fun _ => none }
        clientEx "room1" "pw").ret = false ∧
    (ClientRPC.CreateGame
        { calls := fun _ => CallOutcome.shutdown, dials := fun _ => none }
        clientEx "room1" "pw").sent.length = 1 ∧
    (ClientRPC.RemoveGame
        { calls := fun _ => CallOutcome.shutdown, dials := fun _ => none }
        clientEx "room1").ret = false ∧
    (ClientRPC.RemoveGame
        { calls := fun _ => CallOutcome.shutdown, dials := fun _ => none }
        clientEx "room1").sent.length = 1 :=
  (createGame_removeGame_failfast
    { calls := fun _ => CallOutcome.shutdown, dials := fun _ => none }
    clientEx "room1" "pw").1 rfl rfl

/-- C4: every message CreateGame sends carries method
ServerRPCMethods.NewGame and a GameData holding exactly the given name and
password; every message RemoveGame sends carries method
ServerRPCMethods.RemoveGame and a GameData holding the given name and an
empty password; and when the first attempt succeeds, the boolean reported by
the relay is returned unmodified by both. -/
theorem createGame_removeGame_payload (env : Env) (client : ClientRPC)
    (name hostPassword : String) :
    ((ClientRPC.CreateGame env client name hostPassword).sent =
      List.replicate
        (ClientRPC.CreateGame env client name hostPassword).sent.length
        ("ServerRPCMethods.NewGame",
          { Name := name, Password := hostPassword }) ∧
     (ClientRPC.RemoveGame env client name).sent =
      List.replicate (ClientRPC.RemoveGame env client name).sent.length
        ("ServerRPCMethods.RemoveGame", { Name := name, Password := "" })) ∧
    (∀ b, env.calls 0 = CallOutcome.ok b →
      (ClientRPC.CreateGame env client name hostPassword).ret = b ∧
      (ClientRPC.RemoveGame env client name).ret = b) := by
  cases h0 : env.calls 0 <;> cases h1 : env.calls 1 <;>
    cases hd0 : env.dials 0 <;> cases hd1 : env.dials 1 <;>
    simp [ClientRPC.CreateGame, ClientRPC.RemoveGame, callLoop,
      ClientRPC.connect, List.replicate, h0, h1, hd0, hd1]

/-- C4 (witness): on a responsive relay returning true, both operations
return true. -/
theorem createGame_removeGame_payload_witness :
    (ClientRPC.CreateGame envOkTrue clientEx "room1" "pw").ret = true ∧
    (ClientRPC.RemoveGame envOkTrue clientEx "room1").ret = true :=
  (createGame_removeGame_payload envOkTrue clientEx "room1" "pw").2 true rfl

/-- C5: when the dial fails, connect returns false and leaves the client,
in particular its outbound relay handle, exactly as it was. -/
theorem connect_dial_error_frame (client : ClientRPC) :
    (ClientRPC.connect client none).1 = false ∧
    (ClientRPC.connect client none).2.relay = client.relay ∧
    (ClientRPC.connect client none).2 = client :=
  ⟨rfl, rfl, rfl⟩

/-- C6: CloseConnection closes only the inbound listener; the outbound
relay handle and the registered callback consumer are unchanged. -/
theorem closeConnection_frame (client : ClientRPC) :
    (ClientRPC.CloseConnection client).relay = client.relay ∧
    (ClientRPC.CloseConnection client).callback = client.callback ∧
    (ClientRPC.CloseConnection client).listener =
      client.listener.map (fun l => { l with isClosed := true }) :=
  ⟨rfl, rfl, rfl⟩

/-- C7: NewClientRPC returns nil exactly when the initial connect fails or
the inbound listener cannot be bound; when both succeed it returns a client
holding the given callback, the fresh handle and the bound listener. -/
theorem newClientRPC_construction (callback : ClientCallback)
    (dial : Option Handle) (listen : Option Nat) :
    (NewClientRPC callback dial listen = none ↔
      dial = none ∨ listen = none) ∧
    (∀ h l, dial = some h → listen = some l →
      NewClientRPC callback dial listen =
        some { callback := callback, relay := some h,
               listener := some { id := l, isClosed := false } }) := by
  cases dial <;> cases listen <;> simp [NewClientRPC, ClientRPC.connect]

/-- C7 (witness): with a successful dial and a successful bind, construction
yields the expected client. -/
theorem newClientRPC_construction_witness :
    NewClientRPC { status := none } (some 7) (some 3) =
      some { callback := { status := none }, relay := some 7,
             listener := some { id := 3, isClosed := false } } :=
  (newClientRPC_construction { status := none } (some 7) (some 3)).2 7 3 rfl rfl

/-- C8: each inbound GameConnected or GameClosed handler run invokes the
corresponding callback exactly once with exactly the Name field of the
received GameData, and its behavior does not depend on the Password
field. -/
theorem inbound_dispatch_exactly_once (inData : GameData) (response : Bool)
    (p : String) :
    (ClientRPCMethods.GameConnected inData response).events =
      [CallbackEvent.gameConnected inData.Name] ∧
    (ClientRPCMethods.GameClosed inData response).events =
      [CallbackEvent.gameClosed inData.Name] ∧
    ClientRPCMethods.GameConnected
        { Name := inData.Name, Password := p } response =
      ClientRPCMethods.GameConnected inData response ∧
    ClientRPCMethods.GameClosed
        { Name := inData.Name, Password := p } response =
      ClientRPCMethods.GameClosed inData response :=
  ⟨rfl, rfl, rfl, rfl⟩

/-- C9: the GameConnected and GameClosed handlers return a nil error
unconditionally and never write the boolean response cell. -/
theorem inbound_handlers_never_fail (inData : GameData) (response : Bool) :
    (ClientRPCMethods.GameConnected inData response).err = none ∧
    (ClientRPCMethods.GameConnected inData response).response = response ∧
    (ClientRPCMethods.GameClosed inData response).err = none ∧
    (ClientRPCMethods.GameClosed inData response).response = response :=
  ⟨rfl, rfl, rfl, rfl⟩

/-- C10: the Status handler copies the snapshot behind the pointer returned
by the consumers Status method into the response and returns nil when that
pointer is non-nil, and dereferencing panics when it is nil. -/
theorem status_handler_nil_deref (cb : ClientCallback) (s : ServerStatus)
    (inp : String) :
    (cb.status = some s →
      ClientRPCMethods.Status cb inp = StatusOutcome.returned s none) ∧
    (cb.status = none →
      ClientRPCMethods.Status cb inp = StatusOutcome.nilDeref) := by
  constructor <;> intro h <;> simp [ClientRPCMethods.Status, h]

/-- C10 (witness): a concrete non-nil status is copied through; a nil status
panics. -/
theorem status_handler_nil_deref_witness :
    ClientRPCMethods.Status { status := some { snapshot := 5 } } "status" =
      StatusOutcome.returned { snapshot := 5 } none ∧
    ClientRPCMethods.Status { status := none } "status" =
      StatusOutcome.nilDeref :=
  ⟨(status_handler_nil_deref { status := some { snapshot := 5 } }
      { snapshot := 5 } "status").1 rfl,
   (status_handler_nil_deref { status := none }
      { snapshot := 5 } "status").2 rfl⟩

end RelayInterface
